import Mathlib

set_option maxRecDepth 8000

/-!
Verification of the APT-APT listing-ingestion pipeline.

Shallow embedding of the repository's Python sources:
* `generic_scraper.py` — fingerprint reconciliation engine (`run_generic_scraper`),
* `facebook.py` — payload locator, retrying detail fetch, detail extraction,
* `yad2.py` — item normalisation, paging, count-mismatch warning,
* `facebook_groups_scraper.py` — comparison fingerprint.

Python dicts are embedded as insertion-ordered association lists; fallible
Python code returns `Except`; the `asyncio` fetch primitives are abstracted
as outcome oracles passed in as function arguments.
-/

namespace APT

/-! ## Definitions: the shallow embedding of the pipeline -/

/-- Lookup in a Python dict embedded as an association list (first matching key). -/
def alistLookup {β : Type} (m : List (String × β)) (k : String) : Option β :=
  match m with
  | [] => none
  | (k', v) :: rest => if k' = k then some v else alistLookup rest k

/-- `k in d` for the embedded dict. -/
def alistMem {β : Type} (m : List (String × β)) (k : String) : Bool :=
  (alistLookup m k).isSome

/-- `d[k] = v` for the embedded dict: replace the value at an existing key in
place, otherwise append the new binding (Python dict insertion order). -/
def alistInsert {β : Type} (m : List (String × β)) (k : String) (v : β) :
    List (String × β) :=
  match m with
  | [] => [(k, v)]
  | (k', v') :: rest =>
      if k' = k then (k', v) :: rest else (k', v') :: alistInsert rest k v

/-- `d1.update(d2)` for the embedded dict: assign each binding of `m2` in order. -/
def alistUpdate {β : Type} (m1 m2 : List (String × β)) : List (String × β) :=
  m2.foldl (fun acc kv => alistInsert acc kv.1 kv.2) m1

/-- A listing as handled by `run_generic_scraper`'s merge loop: a Python dict
from which the loop reads the keys `md5` and `id` and writes `id` and
`apartment_page_url`; all remaining keys are carried opaquely in `rest`. -/
structure Item where
  id : String
  apartment_page_url : String
  md5 : String
  rest : List (String × String)
deriving DecidableEq, Repr

/-- The persisted store keyed by fingerprint (`old_by_md5` and
`final_all_md5_based` in generic_scraper.py). -/
abbrev Store := List (String × Item)

/-- The mutable state of the merge loop: `old_by_md5` (mutated in place by the
update branch), `new_items`, and `updated_items`. -/
structure RecState where
  store : Store
  newItems : Store
  updatedItems : Store
deriving DecidableEq, Repr

/-- One iteration of the `for current_item in all_apartments` loop
(generic_scraper.py lines 117-147).  The logging and per-scraper statistics
are side effects with no influence on the data flow and are omitted. -/
def reconcileStep (s : RecState) (current_item : Item) : RecState :=
  match alistLookup s.store current_item.md5 with
  | some existing_item =>
      if current_item.id ≠ existing_item.id then
        let updated := { existing_item with
                           id := current_item.id,
                           apartment_page_url := current_item.apartment_page_url }
        { s with store := alistInsert s.store current_item.md5 updated,
                 updatedItems := alistInsert s.updatedItems current_item.md5 updated }
      else s
  | none =>
      { s with newItems := alistInsert s.newItems current_item.md5 current_item }

/-- The whole merge loop, starting from the loaded store and empty partitions. -/
def reconcile (all_apartments : List Item) (old_by_md5 : Store) : RecState :=
  all_apartments.foldl reconcileStep ⟨old_by_md5, [], []⟩

/-- `md5_key not in new_items and md5_key not in updated_items`. -/
def keptKey (s : RecState) (k : String) : Bool :=
  !(alistMem s.newItems k) && !(alistMem s.updatedItems k)

/-- Reconstruction of `final_all_md5_based` (generic_scraper.py lines 149-156):
old records whose key is in neither partition, then `update(new_items)`,
then `update(updated_items)`. -/
def finalStore (s : RecState) : Store :=
  alistUpdate
    (alistUpdate
      (s.store.filter (fun kv => keptKey s kv.1))
      s.newItems)
    s.updatedItems

/-- `asyncio.gather(*tasks)` without `return_exceptions`: if any task raised,
the awaiting coroutine raises that exception instead of returning the list of
results (generic_scraper.py line 78). -/
def gatherResults {ε α : Type} : List (Except ε α) → Except ε (List α)
  | [] => .ok []
  | .error e :: _ => .error e
  | .ok a :: rest => do pure (a :: (← gatherResults rest))

/-- `run_generic_scraper` (generic_scraper.py lines 59-173), data flow only:
the scrapers' task outcomes are gathered, concatenated, merged against the
loaded store, and the final store plus the two partitions are produced (the
JSON file write persists `finalStore`).  File IO, logging and the stats
counters are omitted; items are modelled with their `md5` already attached,
as every registered scraper attaches it. -/
def run_generic_scraper (scraper_results : List (Except String (List Item)))
    (old_by_md5 : Store) : Except String (Store × Store × Store) := do
  let results ← gatherResults scraper_results
  let all_apartments := results.flatten
  let s := reconcile all_apartments old_by_md5
  pure (finalStore s, s.newItems, s.updatedItems)

/-- Keys of `new_items` are exactly keys absent from the store. -/
def NewFresh (s : RecState) : Prop :=
  ∀ k, alistLookup s.newItems k ≠ none → alistLookup s.store k = none

/-- Every binding recorded in `updated_items` also sits in the store, with the
same (already updated) value: in the Python code both are the same dict. -/
def UpdAgree (s : RecState) : Prop :=
  ∀ k v, alistLookup s.updatedItems k = some v → alistLookup s.store k = some v

/-- Both partitions keep duplicate-free key lists (they are Python dicts). -/
def PartNodup (s : RecState) : Prop :=
  ((s.newItems.map Prod.fst).Nodup) ∧ ((s.updatedItems.map Prod.fst).Nodup)

/-- A deserialized JSON value as navigated by the scrapers. Numbers are
embedded as integers (the navigated payload fields the claims touch are ids,
counts and prices). -/
inductive J where
  | null
  | bool (b : Bool)
  | num (n : Int)
  | str (s : String)
  | arr (xs : List J)
  | obj (fields : List (String × J))
deriving Repr

/-- Python truthiness of a JSON value. -/
def J.truthy : J → Bool
  | .null => false
  | .bool b => b
  | .num n => n != 0
  | .str s => s != ""
  | .arr xs => !xs.isEmpty
  | .obj fs => !fs.isEmpty

/-- The Python exceptions the embedded code can raise. -/
inductive PyErr where
  | attributeError                 -- calling .get on a non-dict
  | typeError                      -- iterating a non-iterable, re.search on a non-str
  | jsonDecodeError                -- json.loads failure
  | valueError (msg : String)      -- raise ValueError(msg)
  | exception (msg : String)       -- raise Exception(msg)
  | timeoutError                   -- asyncio.TimeoutError
  | httpError (status : Nat)       -- aiohttp.ClientResponseError
  | indexError                     -- list index out of range
deriving DecidableEq, Repr

instance exceptDecEq {e a : Type} [DecidableEq e] [DecidableEq a] :
    DecidableEq (Except e a)
  | .ok x, .ok y =>
      if h : x = y then isTrue (by rw [h]) else isFalse (fun hh => h (Except.ok.inj hh))
  | .error x, .error y =>
      if h : x = y then isTrue (by rw [h]) else isFalse (fun hh => h (Except.error.inj hh))
  | .ok _, .error _ => isFalse (fun hh => Except.noConfusion hh)
  | .error _, .ok _ => isFalse (fun hh => Except.noConfusion hh)

/-- `d.get(k, default)`: raises AttributeError when `d` is not a dict. -/
def pyGetD (j : J) (k : String) (d : J) : Except PyErr J :=
  match j with
  | .obj fs => .ok ((alistLookup fs k).getD d)
  | _ => .error .attributeError

/-- `for x in j`: lists yield elements, dicts their keys, strings their
characters; other values raise TypeError. -/
def pyIter (j : J) : Except PyErr (List J) :=
  match j with
  | .arr xs => .ok xs
  | .obj fs => .ok (fs.map (fun kv => J.str kv.1))
  | .str s => .ok (s.data.map (fun c => J.str (String.mk [c])))
  | _ => .error .typeError

/-- `x or d` on a JSON value. -/
def pyOr (v d : J) : J := if v.truthy then v else d

mutual
/-- Python repr as a character list (built at the character level so that the
kernel can evaluate digest inputs); strings are rendered with single quotes,
escape sequences are not modelled — the hashed listing fields are plain
text. -/
def pyReprChars : J → List Char
  | .null => "None".data
  | .bool true => "True".data
  | .bool false => "False".data
  | .num n => (toString n).data
  | .str s => '\'' :: s.data ++ ['\'']
  | .arr xs => '[' :: pyReprListChars xs ++ [']']
  | .obj fs => '\x7b' :: pyReprFieldsChars fs ++ ['\x7d']
def pyReprListChars : List J → List Char
  | [] => []
  | [x] => pyReprChars x
  | x :: y :: rest => pyReprChars x ++ [',', ' '] ++ pyReprListChars (y :: rest)
def pyReprFieldsChars : List (String × J) → List Char
  | [] => []
  | [(k, v)] => '\'' :: k.data ++ ['\'', ':', ' '] ++ pyReprChars v
  | (k, v) :: p :: rest =>
      '\'' :: k.data ++ ['\'', ':', ' '] ++ pyReprChars v ++ [',', ' '] ++
        pyReprFieldsChars (p :: rest)
end

/-- Python repr, as used by str() on dicts and lists. -/
def pyRepr (j : J) : String := String.mk (pyReprChars j)

/-- Python str(): identity on strings, repr on everything else (as f-strings
use it on the values at hand). -/
def pyStr (j : J) : String :=
  match j with
  | .str s => s
  | _ => pyRepr j

/-- `p` is a character-prefix of `s` (kernel-computable embedding of
Python's `str.startswith`). -/
def listIsPrefixOf : List Char → List Char → Bool
  | [], _ => true
  | _ :: _, [] => false
  | c :: cs, d :: ds => c == d && listIsPrefixOf cs ds

def strStartsWith (s p : String) : Bool := listIsPrefixOf p.data s.data

/-- `int(s)` on a digits-only string; `None` when empty. -/
def parseDigits (cs : List Char) : Option Int :=
  if cs.isEmpty then none
  else some (cs.foldl (fun acc c => acc * 10 + ((c.toNat : Int) - ('0'.toNat : Int))) 0)

def JSON_KEY_PREFIX_LISTINGS : String :=
  "adp_CometMarketplaceRealEstateMapStoryQueryRelayPreloader_"

def JSON_KEY_PREFIX_DETAILS : String :=
  "adp_MarketplacePDPContainerQueryRelayPreloader_"

/-- First result of an early-returning `for` loop over candidate entries. -/
def findInList (step : J → Except PyErr (Option J)) : List J → Except PyErr (Option J)
  | [] => pure none
  | x :: rest => do
      match ← step x with
      | some r => pure (some r)
      | none => findInList step rest

/-- The shared outer walk of `find_rental_data_in_blob` and
`find_details_data_in_blob` (facebook.py lines 114-119 and 292-297): an entry
qualifies when it is a list of length ≥ 4 whose 4th element is a non-empty
list starting with a dict that holds a dict under `__bbox` with a `require`
entry; the nested manifest is then scanned with the variant's inner step. -/
def fbOuterStep (innerStep : J → Except PyErr (Option J)) (item : J) :
    Except PyErr (Option J) :=
  match item with
  | .arr xs =>
      if xs.length ≥ 4 then
        match xs.getD 3 .null with
        | .arr ys =>
            if ys.length > 0 then
              match ys.getD 0 .null with
              | .obj dfs =>
                  match alistLookup dfs "__bbox" with
                  | some (.obj bfs) =>
                      match alistLookup bfs "require" with
                      | some inner_require_list => do
                          let items ← pyIter inner_require_list
                          findInList innerStep items
                      | none => pure none
                  | _ => pure none
              | _ => pure none
            else pure none
        | _ => pure none
      else pure none
  | _ => pure none

/-- Inner step of `find_rental_data_in_blob` (facebook.py lines 120-137). -/
def fbListingsInnerStep (inner_item : J) : Except PyErr (Option J) :=
  match inner_item with
  | .arr xs =>
      if xs.length ≥ 4 then
        match xs.getD 3 .null with
        | .arr ys =>
            if ys.length ≥ 2 then
              match ys.getD 0 .null with
              | .str potential_key =>
                  if strStartsWith potential_key JSON_KEY_PREFIX_LISTINGS then do
                    let potential_data_obj := ys.getD 1 .null
                    let nested_bbox ← pyGetD potential_data_obj "__bbox" (.obj [])
                    let result ← pyGetD nested_bbox "result" (.obj [])
                    let data ← pyGetD result "data" (.obj [])
                    let data_viewer ← pyGetD data "viewer" (.obj [])
                    let stories_data ←
                      pyGetD data_viewer "marketplace_rentals_map_view_stories" (.obj [])
                    if stories_data.truthy then do
                      let edges ← pyGetD stories_data "edges" (.arr [])
                      pure (some edges)
                    else pure none
                  else pure none
              | _ => pure none
            else pure none
        | _ => pure none
      else pure none
  | _ => pure none

/-- `find_rental_data_in_blob` (facebook.py lines 111-138): the guarded
two-level walk; `[]` when nothing matches. -/
def find_rental_data_in_blob (parsed_json : J) : Except PyErr J := do
  let require0 ← pyGetD parsed_json "require" (.arr [])
  let items ← pyIter require0
  match ← findInList (fbOuterStep fbListingsInnerStep) items with
  | some edges => pure edges
  | none => pure (.arr [])

/-- Inner step of `find_details_data_in_blob` (facebook.py lines 298-331);
the debug JSON dump is a side effect and is omitted. -/
def fbDetailsInnerStep (inner_item : J) : Except PyErr (Option J) :=
  match inner_item with
  | .arr xs =>
      if xs.length ≥ 4 then
        match xs.getD 3 .null with
        | .arr ys =>
            if ys.length ≥ 2 then
              match ys.getD 0 .null with
              | .str potential_key =>
                  if strStartsWith potential_key JSON_KEY_PREFIX_DETAILS then do
                    let potential_data_obj := ys.getD 1 .null
                    let nested_bbox ← pyGetD potential_data_obj "__bbox" (.obj [])
                    let result ← pyGetD nested_bbox "result" (.obj [])
                    let data ← pyGetD result "data" (.obj [])
                    let data_viewer ← pyGetD data "viewer" (.obj [])
                    let product_details ←
                      pyGetD data_viewer "marketplace_product_details_page" (.obj [])
                    if product_details.truthy then pure (some product_details)
                    else pure none
                  else pure none
              | _ => pure none
            else pure none
        | _ => pure none
      else pure none
  | _ => pure none

/-- `find_details_data_in_blob` (facebook.py lines 289-332): `none` models the
Python `return None`. -/
def find_details_data_in_blob (parsed_json : J) : Except PyErr (Option J) := do
  let require0 ← pyGetD parsed_json "require" (.arr [])
  let items ← pyIter require0
  findInList (fbOuterStep fbDetailsInnerStep) items

/-- `parse_rental_info` (facebook.py lines 140-183). -/
def parse_rental_info (edge : J) : Except PyErr (List (String × J)) := do
  let node ← pyGetD edge "node" (.obj [])
  let for_sale_item ← pyGetD node "for_sale_item" (.obj [])
  let id ← pyGetD for_sale_item "id" (.str "N/A")
  let location ← pyGetD for_sale_item "location" (.obj [])
  let latitude ← pyGetD location "latitude" (.str "N/A")
  let longitude ← pyGetD location "longitude" (.str "N/A")
  let formatted_price ← pyGetD for_sale_item "formatted_price" (.obj [])
  let formatted_price_text ← pyGetD formatted_price "text" (.str "N/A")
  let share_uri ← pyGetD for_sale_item "share_uri" (.str "N/A")
  let listing_photos ← pyGetD for_sale_item "listing_photos" (.arr [])
  let photo_objs ← pyIter listing_photos
  let uris ← photo_objs.mapM (fun photo_obj => do
      let image ← pyGetD photo_obj "image" (.obj [])
      pyGetD image "uri" .null)
  let listing_photos_urls := uris.filter J.truthy
  let numeric_price ←
    match formatted_price_text with
    | .str t =>
        if t = "N/A" then pure J.null
        else
          let kept := t.data.filter (fun c => c.isDigit || c == ',')
          let cleaned := kept.filter (fun c => c != ',')
          pure (match parseDigits cleaned with
                | some n => J.num n
                | none => J.null)
    | _ => Except.error PyErr.typeError
  pure [("id", id), ("latitude", latitude), ("longitude", longitude),
        ("price", numeric_price), ("formatted_price", formatted_price_text),
        ("share_uri", share_uri), ("images", J.arr listing_photos_urls)]

/-- A candidate script blob as handed to json.loads: either it deserializes
to a value or raising JSONDecodeError. -/
inductive Blob where
  | malformed (s : String)
  | parsed (j : J)
deriving Repr

/-- The candidate-scanning loop of `process_json_scripts` (facebook.py
lines 457-479): a JSONDecodeError on any candidate is re-raised at once;
a candidate whose walk yields truthy edges stops the scan. -/
def process_json_scripts_loop : List Blob → Except PyErr (Option J)
  | [] => pure none
  | b :: rest =>
      match b with
      | .malformed _ => .error .jsonDecodeError
      | .parsed parsed_json => do
          let rental_edges ← find_rental_data_in_blob parsed_json
          if rental_edges.truthy then pure (some rental_edges)
          else process_json_scripts_loop rest

/-- `process_json_scripts` (facebook.py lines 453-485). -/
def process_json_scripts (json_script_strs : List Blob) :
    Except PyErr (List (List (String × J))) := do
  match ← process_json_scripts_loop json_script_strs with
  | some rental_edges => do
      let edges ← pyIter rental_edges
      edges.mapM parse_rental_info
  | none =>
      .error (.valueError
        "Failed to find marketplace_rentals_map_view_stories in any JSON script.")

/-- `safe_get` (facebook.py lines 334-341): guarded descent returning Python
`None` (embedded as `J.null`) on any missing key or non-dict step. -/
def safe_get (d : J) (keys : List String) : J :=
  match keys with
  | [] => d
  | key :: rest =>
      match d with
      | .obj fs =>
          match alistLookup fs key with
          | some v => safe_get v rest
          | none => .null
      | _ => .null

/-- `j == 'N/A'` for the comparisons `street != 'N/A'` etc. -/
def isNA (j : J) : Bool :=
  match j with
  | .str s => s == "N/A"
  | _ => false

/-- Leftmost match of the regex `(\d+)\s*beds?` at the start of `cs`,
returning the digit group. -/
def matchBedsAt (cs : List Char) : Option String :=
  let ds := cs.takeWhile Char.isDigit
  if ds.isEmpty then none
  else
    let after := (cs.drop ds.length).dropWhile Char.isWhitespace
    if after.take 3 = ['b', 'e', 'd'] then some (String.mk ds) else none

/-- `re.search` for `(\d+)\s*beds?`: first position with a match. -/
def searchBedsGroup : List Char → Option String
  | [] => none
  | c :: rest =>
      match matchBedsAt (c :: rest) with
      | some g => some g
      | none => searchBedsGroup rest

/-- `extract_additional_details` (facebook.py lines 343-386): requires a dict
`target`, otherwise raises; every secondary attribute is read with `safe_get`
and defaults to the `'N/A'` sentinel; a non-string `unit_room_info` reaches
`re.search` and raises TypeError. -/
def extract_additional_details (product_details : J) : Except PyErr (List (String × J)) :=
  match safe_get product_details ["target"] with
  | .obj tfs => do
      let target := J.obj tfs
      let description := pyOr (safe_get target ["redacted_description", "text"]) (.str "N/A")
      let location_details := safe_get target ["location", "reverse_geocode_detailed"]
      let address_city := pyOr (safe_get location_details ["city"]) (.str "N/A")
      let street := pyOr (safe_get target ["home_address", "street"]) (.str "N/A")
      let full_address :=
        if !(isNA street) && !(isNA address_city) then
          J.str (pyStr street ++ ", " ++ pyStr address_city)
        else J.str "N/A"
      let location := full_address
      let delivery_types0 := pyOr (safe_get target ["delivery_types"]) (.arr [])
      let delivery_types :=
        match delivery_types0 with
        | .arr xs => J.arr xs
        | _ => J.arr []
      let unit_room_info := pyOr (safe_get target ["unit_room_info"]) (.str "N/A")
      let rooms ←
        match unit_room_info with
        | .str t =>
            if t = "N/A" then pure (J.str "N/A")
            else pure (match searchBedsGroup t.data with
                       | some g => J.str g
                       | none => J.str "N/A")
        | _ => Except.error PyErr.typeError
      let comments := safe_get target ["marketplace_comments"]
      let comments_count := pyOr (safe_get comments ["total_count"]) (.str "N/A")
      pure [("description", description), ("full_address", full_address),
            ("location", location), ("delivery_types", delivery_types),
            ("unit_room_info", unit_room_info), ("rooms", rooms),
            ("comments_count", comments_count)]
  | _ =>
      Except.error
        (PyErr.exception "Invalid target data structure (not a dict...) in product details.")

/-- Outcome of one call of `fetch_html_from_share_uri`: the page text, an
asyncio timeout, or an HTTP error raised for a non-200 status. -/
inductive FetchOutcome where
  | success (html : String)
  | timeout
  | httpError (status : Nat)
deriving DecidableEq, Repr

/-- The attempt loop of `fetch_html_from_share_uri_with_retry` (facebook.py
lines 273-287), from attempt number `attempt` on.  `fetchO n` is the outcome
of the n-th call of `fetch_html_from_share_uri`; `jitter n` the n-th
`random.uniform(0, 1)` sample.  Besides the result, the list of backoff
sleeps executed before each retry is returned. -/
def fetchRetryLoop (fetchO : Nat → FetchOutcome) (jitter : Nat → ℚ)
    (max_retries attempt : Nat) : Except PyErr String × List ℚ :=
  match fetchO attempt with
  | .success html => (.ok html, [])
  | .httpError status => (.error (.httpError status), [])
  | .timeout =>
      if h : attempt < max_retries then
        let backoff := (2 : ℚ) ^ attempt + jitter attempt
        let r := fetchRetryLoop fetchO jitter max_retries (attempt + 1)
        (r.1, backoff :: r.2)
      else (.error .timeoutError, [])
termination_by max_retries - attempt

/-- `fetch_html_from_share_uri_with_retry` (facebook.py lines 273-287); the
source's default retry budget is `max_retries = 2`. -/
def fetch_html_from_share_uri_with_retry (fetchO : Nat → FetchOutcome)
    (jitter : Nat → ℚ) (max_retries : Nat) : Except PyErr String × List ℚ :=
  fetchRetryLoop fetchO jitter max_retries 0

/-- The detail-blob scanning loop of `fetch_and_parse_details` (facebook.py
lines 409-423): any malformed candidate re-raises JSONDecodeError. -/
def find_details_loop : List Blob → Except PyErr (Option J)
  | [] => pure none
  | b :: rest =>
      match b with
      | .malformed _ => .error .jsonDecodeError
      | .parsed parsed_json => do
          match ← find_details_data_in_blob parsed_json with
          | some details_data => pure (some details_data)
          | none => find_details_loop rest

/-- `fetch_and_parse_details` (facebook.py lines 388-434): skip without a
usable `share_uri`; otherwise fetch with retries, scan the page's script
blobs for the details payload, extract the additional fields and merge them
into `apartments_list[index]`.  The pre-fetch anti-rate-limit sleep is pure
delay and is omitted; `scripts_of` abstracts `extract_json_script_content`
over the fetched page. -/
def fetch_and_parse_details (fetchO : Nat → FetchOutcome) (jitter : Nat → ℚ)
    (scripts_of : String → List Blob) (apartment : List (String × J))
    (apartments_list : List (List (String × J))) (index : Nat) :
    Except PyErr (List (List (String × J)) × List (String × J)) := do
  let share_uri := (alistLookup apartment "share_uri").getD J.null
  if !share_uri.truthy || isNA share_uri then
    pure (apartments_list, [])
  else do
    let html ← (fetch_html_from_share_uri_with_retry fetchO jitter 2).1
    let json_script_strs := scripts_of html
    if json_script_strs.isEmpty then
      Except.error (.valueError "No script tags with data-sjs attribute found.")
    else do
      match ← find_details_loop json_script_strs with
      | none =>
          Except.error (.valueError "Failed to find detailed data on share_uri page.")
      | some details_data => do
          let additional_details ← extract_additional_details details_data
          if index < apartments_list.length then
            pure (apartments_list.set index
                    (alistUpdate (apartments_list.getD index []) additional_details),
                  additional_details)
          else Except.error .indexError

/-- Fixture: a candidate blob holding one preloader entry under `key` with
`payload` as its data object, shaped as the locator's walk expects. -/
def fbCandidateBlob (key : String) (payload : J) : J :=
  J.obj [("require", J.arr [J.arr [J.null, J.null, J.null,
    J.arr [J.obj [("__bbox", J.obj [("require", J.arr [J.arr [J.null, J.null, J.null,
      J.arr [J.str key, payload]]])])]]]])]

/-- Fixture: a data object whose `__bbox.result.data.viewer` chain ends in
`final_key ↦ v`. -/
def fbViewerPayload (final_key : String) (v : J) : J :=
  J.obj [("__bbox", J.obj [("result", J.obj [("data", J.obj [("viewer",
    J.obj [(final_key, v)])])])])]

/-- Fixture: one raw listing edge. -/
def validListingEdge : J :=
  J.obj [("node", J.obj [("for_sale_item",
    J.obj [("id", J.str "123"), ("share_uri", J.str "https://fb/s/123")])])]

/-- Fixture: a candidate blob containing one listing edge. -/
def validListingBlob : J :=
  fbCandidateBlob (JSON_KEY_PREFIX_LISTINGS ++ "1")
    (fbViewerPayload "marketplace_rentals_map_view_stories"
      (J.obj [("edges", J.arr [validListingEdge])]))

/-- Fixture: the normalized record `parse_rental_info` produces for
`validListingEdge`. -/
def validListingParsed : List (String × J) :=
  [("id", J.str "123"), ("latitude", J.str "N/A"), ("longitude", J.str "N/A"),
   ("price", J.null), ("formatted_price", J.str "N/A"),
   ("share_uri", J.str "https://fb/s/123"), ("images", J.arr [])]

/-- Fixture: a details payload with a dict `target` carrying only
`unit_room_info`. -/
def validDetailsPayload : J :=
  J.obj [("target", J.obj [("unit_room_info", J.str "3 beds")])]

/-- Fixture: a candidate blob for the details variant of the locator. -/
def validDetailsBlob : J :=
  fbCandidateBlob (JSON_KEY_PREFIX_DETAILS ++ "0")
    (fbViewerPayload "marketplace_product_details_page" validDetailsPayload)

/-- Fixture: a listing-prefixed entry whose data object stops at an empty
`result`, so the remaining descent finds nothing. -/
def truncatedListingBlob : J :=
  fbCandidateBlob (JSON_KEY_PREFIX_LISTINGS ++ "0")
    (J.obj [("__bbox", J.obj [("result", J.obj [])])])

/-- A JSON number as a Python int where the code does arithmetic or `range`
on it (bool is an int subclass); anything else raises TypeError. -/
def pyInt (j : J) : Except PyErr Int :=
  match j with
  | .num n => .ok n
  | .bool b => .ok (if b then 1 else 0)
  | _ => .error .typeError

/-- `_process_item` (yad2.py lines 93-145): the 13 normalized fields, in
insertion order, before the `md5` and `type` keys are attached.  Note that
`id` (the token) and `apartment_page_url` are among them. -/
def yad2_processed_fields (item : J) : Except PyErr (List (String × J)) := do
  let address ← pyGetD item "address" (.obj [])
  let cityD ← pyGetD address "city" (.obj [])
  let city ← pyGetD cityD "text" (.str "")
  let streetD ← pyGetD address "street" (.obj [])
  let street ← pyGetD streetD "text" (.str "")
  let location :=
    if city.truthy && street.truthy then J.str (pyStr street ++ ", " ++ pyStr city)
    else if city.truthy then city
    else if street.truthy then street
    else J.str ""
  let coords ← pyGetD address "coords" (.obj [])
  let latitude ← pyGetD coords "lat" .null
  let longitude ← pyGetD coords "lon" .null
  let price ← pyGetD item "price" .null
  let id ← pyGetD item "token" .null
  let token ← pyGetD item "token" (.str "")
  let apartment_page_url :=
    J.str ("https://www.yad2.co.il/realestate/item/" ++ pyStr token)
  let additional_details ← pyGetD item "additionalDetails" (.obj [])
  let roomsV ← pyGetD additional_details "roomsCount" (.str "")
  let rooms := J.str (pyStr roomsV)
  let sizeV ← pyGetD additional_details "squareMeter" (.str "")
  let size := J.str (pyStr sizeV)
  let metadata ← pyGetD item "metaData" (.obj [])
  let images ← pyGetD metadata "images" (.arr [])
  let tagsV ← pyGetD item "tags" (.arr [])
  let tagObjs ← pyIter tagsV
  let tags ← tagObjs.mapM (fun tag => pyGetD tag "name" (.str ""))
  let house_details ← pyGetD address "house" (.obj [])
  let floorV ← pyGetD house_details "floor" (.str "")
  let floor := J.str (pyStr floorV)
  pure [("city", city), ("street", street), ("location", location),
        ("latitude", latitude), ("longitude", longitude), ("price", price),
        ("id", id), ("apartment_page_url", apartment_page_url),
        ("rooms", rooms), ("size", size), ("images", images),
        ("tags", J.arr tags), ("floor", floor)]

/-- The byte string `_get_md5` hashes for an item (yad2.py lines 146-147 and
186-187): `str(processed_item)` over the 13 fields, before md5/type are
attached.  The md5 digest itself is injective up to the accepted collision
risk, so two items fingerprint equal iff these strings are equal. -/
def yad2_md5_input (item : J) : Except PyErr String := do
  let fields ← yad2_processed_fields item
  pure (pyStr (J.obj fields))

/-- `_process_item` proper, with the digest function passed in as the
uninterpreted `md5hex` (hashlib.md5 hex digest). -/
def yad2_process_item (md5hex : String → String) (item : J) :
    Except PyErr (List (String × J)) := do
  let fields ← yad2_processed_fields item
  pure (fields ++ [("md5", J.str (md5hex (pyStr (J.obj fields)))),
                   ("type", J.str "yad2")])

/-- `_process_page` (yad2.py lines 189-196): only the `private` feed list is
normalized; `commercial` is never read here. -/
def yad2_process_page (md5hex : String → String) (page : J) :
    Except PyErr (List (List (String × J))) := do
  let pageProps ← pyGetD page "pageProps" (.obj [])
  let feed_data ← pyGetD pageProps "feed" (.obj [])
  let privateV ← pyGetD feed_data "private" (.arr [])
  let items ← pyIter privateV
  items.mapM (yad2_process_item md5hex)

/-- `get_current` (yad2.py lines 198-231) for the single configured city:
`pageData n` is the payload `_get_page_data(n, city)` returns.  The boolean
result records whether the count-mismatch warning fired (line 227). -/
def yad2_get_current (md5hex : String → String) (pageData : Nat → J) :
    Except PyErr (List (List (String × J)) × Bool) := do
  let first_page := pageData 1
  let pageProps ← pyGetD first_page "pageProps" (.obj [])
  let feed ← pyGetD pageProps "feed" (.obj [])
  let pagination_data ← pyGetD feed "pagination" (.obj [])
  let page_countJ ← pyGetD pagination_data "totalPages" (.num 0)
  let page_count ← pyInt page_countJ
  let totalJ ← pyGetD pagination_data "total" (.num 0)
  let total ← pyInt totalJ
  let total_expected := 0 + total
  let current1 ← yad2_process_page md5hex first_page
  let rest ←
    if page_count > 1 then do
      let pagesResults ← (List.range' 2 (page_count.toNat - 1)).mapM
          (fun page_number => yad2_process_page md5hex (pageData page_number))
      pure pagesResults.flatten
    else pure []
  let current := current1 ++ rest
  let warn := (current.length : Int) != total_expected
  pure (current, warn)

/-- Fixture: a feed page as `get_current` consumes it, with both the
`private` and `commercial` lists and the pagination block. -/
def mkYad2Page (totalPages total : Int) (priv comm : List J) : J :=
  J.obj [("pageProps", J.obj [("feed", J.obj [
    ("pagination", J.obj [("totalPages", J.num totalPages),
                          ("total", J.num total)]),
    ("private", J.arr priv), ("commercial", J.arr comm)])])]

/-- Lexicographic code-point order on strings (Python's `<` on str), as a
kernel-computable Bool. -/
def charListLt : List Char → List Char → Bool
  | [], [] => false
  | [], _ :: _ => true
  | _ :: _, [] => false
  | c :: cs, d :: ds =>
      Nat.blt c.toNat d.toNat || (c == d && charListLt cs ds)

def keyLt (a b : String) : Bool := charListLt a.data b.data

/-- Stable insertion of a rendered field by key (Python's sorted is stable;
equal keys keep their order). -/
def insertSortedField (p : String × List Char) :
    List (String × List Char) → List (String × List Char)
  | [] => [p]
  | q :: rest => if keyLt p.1 q.1 then p :: q :: rest else q :: insertSortedField p rest

def sortFieldsByKey (fs : List (String × List Char)) : List (String × List Char) :=
  fs.foldl (fun acc p => insertSortedField p acc) []

def renderJsonFieldsChars : List (String × List Char) → List Char
  | [] => []
  | [(k, v)] => '"' :: k.data ++ ['"', ':', ' '] ++ v
  | (k, v) :: p :: rest =>
      '"' :: k.data ++ ['"', ':', ' '] ++ v ++ [',', ' '] ++
        renderJsonFieldsChars (p :: rest)

mutual
/-- `json.dumps(..., sort_keys=True, ensure_ascii=False)` with the default
separators, built at the character level; string escaping is not modelled
(the hashed fields are plain text). -/
def jsonDumpsChars : J → List Char
  | .null => "null".data
  | .bool true => "true".data
  | .bool false => "false".data
  | .num n => (toString n).data
  | .str s => '"' :: s.data ++ ['"']
  | .arr xs => '[' :: jsonDumpsListChars xs ++ [']']
  | .obj fs =>
      '\x7b' :: renderJsonFieldsChars (sortFieldsByKey (jsonDumpsFields fs)) ++ ['\x7d']
def jsonDumpsListChars : List J → List Char
  | [] => []
  | [x] => jsonDumpsChars x
  | x :: y :: rest => jsonDumpsChars x ++ [',', ' '] ++ jsonDumpsListChars (y :: rest)
def jsonDumpsFields : List (String × J) → List (String × List Char)
  | [] => []
  | (k, v) :: rest => (k, jsonDumpsChars v) :: jsonDumpsFields rest
end

/-- `_get_md5_for_comparison` (facebook_groups_scraper.py lines 42-54): the
dict of fields hashed for comparison — note that it includes `id`. -/
def fb_groups_comparison_data (item : List (String × J)) : List (String × J) :=
  [("price", (alistLookup item "price").getD J.null),
   ("id", (alistLookup item "id").getD J.null),
   ("full_address", (alistLookup item "full_address").getD (J.obj []))]

/-- The `comparison_string` fed to md5 in `_get_md5_for_comparison`. -/
def fb_groups_comparison_string (item : List (String × J)) : String :=
  String.mk (jsonDumpsChars (J.obj (fb_groups_comparison_data item)))

/-! ## Theorems: association-list laws, merge-loop invariants, and the claims -/

theorem alistLookup_insert {β : Type} (m : List (String × β)) (k k' : String) (v : β) :
    alistLookup (alistInsert m k v) k' = if k' = k then some v else alistLookup m k' := by
  induction m with
  | nil =>
      by_cases h : k' = k
      · subst h; simp [alistInsert, alistLookup]
      · simp only [alistInsert, alistLookup]
        rw [if_neg (fun hh : k = k' => h hh.symm), if_neg h]
  | cons kv rest ih =>
      obtain ⟨k0, v0⟩ := kv
      by_cases h0 : k0 = k
      · subst h0
        simp only [alistInsert, if_pos rfl, alistLookup]
        by_cases h1 : k0 = k'
        · subst h1; simp
        · simp only [if_neg h1, if_neg (fun hh : k' = k0 => h1 hh.symm)]
      · simp only [alistInsert, if_neg h0, alistLookup]
        by_cases h1 : k0 = k'
        · subst h1
          simp only [if_pos rfl, if_neg (fun hh : k0 = k => h0 hh), if_true]
        · simp only [if_neg h1, ih]

theorem alistLookup_insert_self {β : Type} (m : List (String × β)) (k : String) (v : β) :
    alistLookup (alistInsert m k v) k = some v := by
  rw [alistLookup_insert, if_pos rfl]

theorem alistLookup_insert_ne {β : Type} (m : List (String × β)) (k k' : String) (v : β)
    (h : k' ≠ k) : alistLookup (alistInsert m k v) k' = alistLookup m k' := by
  rw [alistLookup_insert, if_neg h]

theorem alistLookup_isSome_insert {β : Type} (m : List (String × β)) (k k' : String) (v : β)
    (hk : alistMem m k = true) :
    alistMem (alistInsert m k v) k' = alistMem m k' := by
  unfold alistMem at *
  rw [alistLookup_insert]
  by_cases h : k' = k
  · subst h
    cases hl : alistLookup m k' with
    | none => rw [hl] at hk; simp at hk
    | some w => simp
  · rw [if_neg h]

theorem alistLookup_eq_none_iff {β : Type} (m : List (String × β)) (k : String) :
    alistLookup m k = none ↔ k ∉ m.map Prod.fst := by
  induction m with
  | nil => simp [alistLookup]
  | cons kv rest ih =>
      obtain ⟨k0, v0⟩ := kv
      simp only [alistLookup, List.map_cons, List.mem_cons]
      by_cases h0 : k0 = k
      · subst h0; simp
      · rw [if_neg h0]
        rw [ih]
        constructor
        · intro hn hor
          rcases hor with h1 | h1
          · exact h0 h1.symm
          · exact hn h1
        · intro hn
          intro hmem
          exact hn (Or.inr hmem)

theorem alistInsert_keys {β : Type} (m : List (String × β)) (k : String) (v : β) :
    (alistInsert m k v).map Prod.fst =
      if k ∈ m.map Prod.fst then m.map Prod.fst else m.map Prod.fst ++ [k] := by
  induction m with
  | nil => simp [alistInsert]
  | cons kv rest ih =>
      obtain ⟨k0, v0⟩ := kv
      simp only [alistInsert]
      by_cases h0 : k0 = k
      · subst h0
        simp
      · rw [if_neg h0]
        simp only [List.map_cons, ih, List.mem_cons]
        by_cases h1 : k ∈ rest.map Prod.fst
        · rw [if_pos h1, if_pos (Or.inr h1)]
        · rw [if_neg h1, if_neg (fun hor => by
            rcases hor with h2 | h2
            · exact h0 h2.symm
            · exact h1 h2)]
          simp

theorem alistKeysNodup_insert {β : Type} (m : List (String × β)) (k : String) (v : β)
    (h : (m.map Prod.fst).Nodup) : ((alistInsert m k v).map Prod.fst).Nodup := by
  rw [alistInsert_keys]
  by_cases h1 : k ∈ m.map Prod.fst
  · rw [if_pos h1]; exact h
  · rw [if_neg h1]
    simp only [List.nodup_append, List.nodup_singleton]
    refine ⟨h, trivial, ?_⟩
    intro a ha hb
    simp only [List.mem_singleton] at hb
    subst hb
    exact h1 ha

theorem alistLookup_update_of_none {β : Type} (m1 m2 : List (String × β)) (k : String)
    (h : alistLookup m2 k = none) :
    alistLookup (alistUpdate m1 m2) k = alistLookup m1 k := by
  induction m2 generalizing m1 with
  | nil => rfl
  | cons kv rest ih =>
      obtain ⟨k2, v2⟩ := kv
      simp only [alistLookup] at h
      by_cases h2 : k2 = k
      · rw [if_pos h2] at h; simp at h
      · rw [if_neg h2] at h
        show alistLookup (alistUpdate (alistInsert m1 k2 v2) rest) k = _
        rw [ih (alistInsert m1 k2 v2) h, alistLookup_insert_ne _ _ _ _ (fun hh => h2 hh.symm)]

theorem alistLookup_update_of_some {β : Type} (m1 m2 : List (String × β)) (k : String) (v : β)
    (hnd : (m2.map Prod.fst).Nodup) (h : alistLookup m2 k = some v) :
    alistLookup (alistUpdate m1 m2) k = some v := by
  induction m2 generalizing m1 with
  | nil => simp [alistLookup] at h
  | cons kv rest ih =>
      obtain ⟨k2, v2⟩ := kv
      simp only [alistLookup] at h
      simp only [List.map_cons, List.nodup_cons] at hnd
      show alistLookup (alistUpdate (alistInsert m1 k2 v2) rest) k = some v
      by_cases h2 : k2 = k
      · rw [if_pos h2] at h
        subst h2
        have hrest : alistLookup rest k2 = none :=
          (alistLookup_eq_none_iff rest k2).mpr hnd.1
        rw [alistLookup_update_of_none _ _ _ hrest, alistLookup_insert_self]
        exact h.symm ▸ rfl
      · rw [if_neg h2] at h
        exact ih (alistInsert m1 k2 v2) hnd.2 h

theorem alistLookup_filter_key {β : Type} (m : List (String × β)) (P : String → Bool)
    (k : String) :
    alistLookup (m.filter (fun kv => P kv.1)) k =
      if P k then alistLookup m k else none := by
  induction m with
  | nil => simp [alistLookup]
  | cons kv rest ih =>
      obtain ⟨k0, v0⟩ := kv
      by_cases hP : P k0
      · rw [List.filter_cons_of_pos (by simpa using hP)]
        simp only [alistLookup]
        by_cases h0 : k0 = k
        · subst h0
          rw [if_pos rfl, if_pos hP, if_pos rfl]
        · rw [if_neg h0, ih, if_neg h0]
      · rw [List.filter_cons_of_neg (by simpa using hP)]
        simp only [alistLookup]
        by_cases h0 : k0 = k
        · subst h0
          rw [ih, if_neg hP, if_neg hP]
        · rw [ih, if_neg h0]

theorem reconcileStep_of_none (s : RecState) (c : Item)
    (hl : alistLookup s.store c.md5 = none) :
    reconcileStep s c = { s with newItems := alistInsert s.newItems c.md5 c } := by
  unfold reconcileStep
  rw [hl]

theorem reconcileStep_of_some_ne (s : RecState) (c ex : Item)
    (hl : alistLookup s.store c.md5 = some ex) (hid : c.id ≠ ex.id) :
    reconcileStep s c =
      { s with
          store := alistInsert s.store c.md5
            { ex with id := c.id, apartment_page_url := c.apartment_page_url },
          updatedItems := alistInsert s.updatedItems c.md5
            { ex with id := c.id, apartment_page_url := c.apartment_page_url } } := by
  unfold reconcileStep
  rw [hl]
  dsimp only
  rw [if_pos hid]

theorem reconcileStep_of_some_eq (s : RecState) (c ex : Item)
    (hl : alistLookup s.store c.md5 = some ex) (hid : c.id = ex.id) :
    reconcileStep s c = s := by
  unfold reconcileStep
  rw [hl]
  dsimp only
  rw [if_neg (fun hh => hh hid)]

theorem reconcileStep_store_none (s : RecState) (c : Item) (k : String) :
    alistLookup (reconcileStep s c).store k = none ↔ alistLookup s.store k = none := by
  cases hl : alistLookup s.store c.md5 with
  | none => rw [reconcileStep_of_none s c hl]
  | some ex =>
      by_cases hid : c.id = ex.id
      · rw [reconcileStep_of_some_eq s c ex hl hid]
      · rw [reconcileStep_of_some_ne s c ex hl hid]
        show alistLookup (alistInsert s.store c.md5 _) k = none ↔ _
        rw [alistLookup_insert]
        by_cases hk : k = c.md5
        · subst hk
          rw [if_pos rfl, hl]
          simp
        · rw [if_neg hk]

theorem foldl_store_none (L : List Item) (s : RecState) (k : String) :
    alistLookup ((L.foldl reconcileStep s).store) k = none ↔
      alistLookup s.store k = none := by
  induction L generalizing s with
  | nil => exact Iff.rfl
  | cons c rest ih =>
      exact (ih (reconcileStep s c)).trans (reconcileStep_store_none s c k)

theorem newFresh_step (s : RecState) (c : Item) (h : NewFresh s) :
    NewFresh (reconcileStep s c) := by
  cases hl : alistLookup s.store c.md5 with
  | none =>
      rw [reconcileStep_of_none s c hl]
      intro k hk
      show alistLookup s.store k = none
      have hk' : alistLookup (alistInsert s.newItems c.md5 c) k ≠ none := hk
      by_cases hkc : k = c.md5
      · subst hkc; exact hl
      · apply h
        rwa [alistLookup_insert_ne _ _ _ _ hkc] at hk'
  | some ex =>
      by_cases hid : c.id = ex.id
      · rw [reconcileStep_of_some_eq s c ex hl hid]; exact h
      · rw [reconcileStep_of_some_ne s c ex hl hid]
        intro k hk
        have hk' : alistLookup s.newItems k ≠ none := hk
        have hnone := h k hk'
        show alistLookup (alistInsert s.store c.md5 _) k = none
        rw [alistLookup_insert]
        by_cases hkc : k = c.md5
        · subst hkc; rw [hl] at hnone; exact absurd hnone (by simp)
        · rw [if_neg hkc]; exact hnone

theorem newFresh_foldl (L : List Item) (s : RecState) (h : NewFresh s) :
    NewFresh (L.foldl reconcileStep s) := by
  induction L generalizing s with
  | nil => exact h
  | cons c rest ih => exact ih (reconcileStep s c) (newFresh_step s c h)

theorem updAgree_step (s : RecState) (c : Item) (h : UpdAgree s) :
    UpdAgree (reconcileStep s c) := by
  cases hl : alistLookup s.store c.md5 with
  | none => rw [reconcileStep_of_none s c hl]; exact h
  | some ex =>
      by_cases hid : c.id = ex.id
      · rw [reconcileStep_of_some_eq s c ex hl hid]; exact h
      · rw [reconcileStep_of_some_ne s c ex hl hid]
        intro k v hk
        have hk' : alistLookup (alistInsert s.updatedItems c.md5 _) k = some v := hk
        show alistLookup (alistInsert s.store c.md5 _) k = some v
        rw [alistLookup_insert] at hk' ⊢
        by_cases hkc : k = c.md5
        · rw [if_pos hkc] at hk' ⊢; exact hk'
        · rw [if_neg hkc] at hk' ⊢; exact h k v hk'

theorem updAgree_foldl (L : List Item) (s : RecState) (h : UpdAgree s) :
    UpdAgree (L.foldl reconcileStep s) := by
  induction L generalizing s with
  | nil => exact h
  | cons c rest ih => exact ih (reconcileStep s c) (updAgree_step s c h)

theorem partNodup_step (s : RecState) (c : Item) (h : PartNodup s) :
    PartNodup (reconcileStep s c) := by
  cases hl : alistLookup s.store c.md5 with
  | none =>
      rw [reconcileStep_of_none s c hl]
      exact ⟨alistKeysNodup_insert _ _ _ h.1, h.2⟩
  | some ex =>
      by_cases hid : c.id = ex.id
      · rw [reconcileStep_of_some_eq s c ex hl hid]; exact h
      · rw [reconcileStep_of_some_ne s c ex hl hid]
        exact ⟨h.1, alistKeysNodup_insert _ _ _ h.2⟩

theorem partNodup_foldl (L : List Item) (s : RecState) (h : PartNodup s) :
    PartNodup (L.foldl reconcileStep s) := by
  induction L generalizing s with
  | nil => exact h
  | cons c rest ih => exact ih (reconcileStep s c) (partNodup_step s c h)

theorem reconcileStep_untouched (s : RecState) (c : Item) (k : String)
    (h : c.md5 ≠ k) :
    alistLookup (reconcileStep s c).store k = alistLookup s.store k ∧
    alistLookup (reconcileStep s c).newItems k = alistLookup s.newItems k ∧
    alistLookup (reconcileStep s c).updatedItems k = alistLookup s.updatedItems k := by
  cases hl : alistLookup s.store c.md5 with
  | none =>
      rw [reconcileStep_of_none s c hl]
      exact ⟨rfl, alistLookup_insert_ne _ _ _ _ (fun hh => h hh.symm), rfl⟩
  | some ex =>
      by_cases hid : c.id = ex.id
      · rw [reconcileStep_of_some_eq s c ex hl hid]
        exact ⟨rfl, rfl, rfl⟩
      · rw [reconcileStep_of_some_ne s c ex hl hid]
        exact ⟨alistLookup_insert_ne _ _ _ _ (fun hh => h hh.symm), rfl,
               alistLookup_insert_ne _ _ _ _ (fun hh => h hh.symm)⟩

theorem foldl_untouched (L : List Item) (s : RecState) (k : String)
    (h : k ∉ L.map Item.md5) :
    alistLookup ((L.foldl reconcileStep s).store) k = alistLookup s.store k ∧
    alistLookup ((L.foldl reconcileStep s).newItems) k = alistLookup s.newItems k ∧
    alistLookup ((L.foldl reconcileStep s).updatedItems) k =
      alistLookup s.updatedItems k := by
  induction L generalizing s with
  | nil => exact ⟨rfl, rfl, rfl⟩
  | cons c rest ih =>
      simp only [List.map_cons, List.mem_cons] at h
      push_neg at h
      obtain ⟨h1, h2⟩ := h
      obtain ⟨e1, e2, e3⟩ := ih (reconcileStep s c) h2
      obtain ⟨f1, f2, f3⟩ := reconcileStep_untouched s c k (fun hh => h1 hh.symm)
      exact ⟨e1.trans f1, e2.trans f2, e3.trans f3⟩

/-- How a lookup in the reconstructed final store resolves: `updated_items`
wins, then `new_items`, then the (possibly mutated) store. -/
theorem finalStore_lookup (s : RecState) (hn : PartNodup s) (k : String) :
    alistLookup (finalStore s) k =
      match alistLookup s.updatedItems k with
      | some v => some v
      | none =>
          match alistLookup s.newItems k with
          | some v => some v
          | none => alistLookup s.store k := by
  unfold finalStore
  cases hu : alistLookup s.updatedItems k with
  | some v => exact alistLookup_update_of_some _ _ _ _ hn.2 hu
  | none =>
      rw [alistLookup_update_of_none _ _ _ hu]
      cases hw : alistLookup s.newItems k with
      | some v => exact alistLookup_update_of_some _ _ _ _ hn.1 hw
      | none =>
          rw [alistLookup_update_of_none _ _ _ hw]
          rw [alistLookup_filter_key s.store (keptKey s) k]
          have : keptKey s k = true := by
            unfold keptKey alistMem
            rw [hu, hw]
            rfl
          rw [if_pos this]

/-- After the loop has processed an item `f` (and given that every item of the
remaining list sharing `f`'s fingerprint also shares its id), the resolved
binding for `f.md5` — in the store if the fingerprint was known, in
`new_items` otherwise — carries `f.id`, and further steps preserve this. -/
theorem resolve_preserve (L : List Item) (s : RecState) (f : Item)
    (hids : ∀ a ∈ L, a.md5 = f.md5 → a.id = f.id)
    (hP : (∃ r, alistLookup s.store f.md5 = some r ∧ r.id = f.id) ∨
          (∃ r, alistLookup s.newItems f.md5 = some r ∧ r.id = f.id ∧
                alistLookup s.store f.md5 = none)) :
    (∃ r, alistLookup (L.foldl reconcileStep s).store f.md5 = some r ∧ r.id = f.id) ∨
    (∃ r, alistLookup (L.foldl reconcileStep s).newItems f.md5 = some r ∧ r.id = f.id ∧
          alistLookup (L.foldl reconcileStep s).store f.md5 = none) := by
  induction L generalizing s with
  | nil => exact hP
  | cons c rest ih =>
      have hc : c.md5 = f.md5 → c.id = f.id := hids c (List.mem_cons_self c rest)
      have hrest : ∀ a ∈ rest, a.md5 = f.md5 → a.id = f.id :=
        fun a ha => hids a (List.mem_cons_of_mem c ha)
      apply ih (reconcileStep s c) hrest
      rcases hP with ⟨r, hr, hrid⟩ | ⟨r, hr, hrid, hstore⟩
      · by_cases hm : c.md5 = f.md5
        · have hcid : c.id = f.id := hc hm
          have hl : alistLookup s.store c.md5 = some r := by rw [hm]; exact hr
          rw [reconcileStep_of_some_eq s c r hl (by rw [hcid, hrid])]
          exact Or.inl ⟨r, hr, hrid⟩
        · obtain ⟨e1, e2, e3⟩ := reconcileStep_untouched s c f.md5 hm
          exact Or.inl ⟨r, e1.trans hr, hrid⟩
      · by_cases hm : c.md5 = f.md5
        · have hl : alistLookup s.store c.md5 = none := by rw [hm]; exact hstore
          rw [reconcileStep_of_none s c hl]
          refine Or.inr ⟨c, ?_, hc hm, hstore⟩
          show alistLookup (alistInsert s.newItems c.md5 c) f.md5 = some c
          rw [← hm]
          exact alistLookup_insert_self s.newItems c.md5 c
        · obtain ⟨e1, e2, e3⟩ := reconcileStep_untouched s c f.md5 hm
          exact Or.inr ⟨r, e2.trans hr, hrid, e1.trans hstore⟩

theorem resolve_foldl (L : List Item) (s : RecState) (f : Item) (hf : f ∈ L)
    (hids : ∀ a ∈ L, a.md5 = f.md5 → a.id = f.id) :
    (∃ r, alistLookup (L.foldl reconcileStep s).store f.md5 = some r ∧ r.id = f.id) ∨
    (∃ r, alistLookup (L.foldl reconcileStep s).newItems f.md5 = some r ∧ r.id = f.id ∧
          alistLookup (L.foldl reconcileStep s).store f.md5 = none) := by
  induction L generalizing s with
  | nil => cases hf
  | cons c rest ih =>
      have hrest : ∀ a ∈ rest, a.md5 = f.md5 → a.id = f.id :=
        fun a ha => hids a (List.mem_cons_of_mem c ha)
      rcases List.mem_cons.mp hf with hfc | hfr
      · subst hfc
        apply resolve_preserve rest (reconcileStep s f) f hrest
        cases hl : alistLookup s.store f.md5 with
        | none =>
            rw [reconcileStep_of_none s f hl]
            exact Or.inr ⟨f, alistLookup_insert_self s.newItems f.md5 f, rfl, hl⟩
        | some ex =>
            by_cases hid : f.id = ex.id
            · rw [reconcileStep_of_some_eq s f ex hl hid]
              exact Or.inl ⟨ex, hl, hid.symm⟩
            · rw [reconcileStep_of_some_ne s f ex hl hid]
              exact Or.inl ⟨_, alistLookup_insert_self s.store f.md5 _, rfl⟩
      · exact ih (reconcileStep s c) hfr hrest

theorem newFresh_reconcile (F : List Item) (S : Store) : NewFresh (reconcile F S) := by
  apply newFresh_foldl
  intro k hk
  exact absurd rfl hk

theorem updAgree_reconcile (F : List Item) (S : Store) : UpdAgree (reconcile F S) := by
  apply updAgree_foldl
  intro k v hk
  exact absurd hk (by simp [alistLookup])

theorem partNodup_reconcile (F : List Item) (S : Store) : PartNodup (reconcile F S) := by
  apply partNodup_foldl
  exact ⟨List.nodup_nil, List.nodup_nil⟩

/-- After one pass, the final store binds every fresh item's fingerprint to a
record carrying that item's id (given fingerprint-consistent ids in `F`). -/
theorem finalStore_resolves (F : List Item) (S : Store) (f : Item) (hf : f ∈ F)
    (hids : ∀ a ∈ F, a.md5 = f.md5 → a.id = f.id) :
    ∃ r, alistLookup (finalStore (reconcile F S)) f.md5 = some r ∧ r.id = f.id := by
  have hP := resolve_foldl F ⟨S, [], []⟩ f hf hids
  have hnd := partNodup_reconcile F S
  have hNF := newFresh_reconcile F S
  have hUA := updAgree_reconcile F S
  rw [show F.foldl reconcileStep ⟨S, [], []⟩ = reconcile F S from rfl] at hP
  rcases hP with ⟨r, hr, hrid⟩ | ⟨r, hr, hrid, hstore⟩
  · cases hu : alistLookup (reconcile F S).updatedItems f.md5 with
    | some u =>
        have hsu := hUA _ _ hu
        rw [hr] at hsu
        injection hsu with hsu
        refine ⟨u, ?_, by rw [← hsu]; exact hrid⟩
        rw [finalStore_lookup _ hnd, hu]
    | none =>
        cases hw : alistLookup (reconcile F S).newItems f.md5 with
        | some w =>
            have := hNF f.md5 (by rw [hw]; simp)
            rw [hr] at this
            cases this
        | none =>
            refine ⟨r, ?_, hrid⟩
            rw [finalStore_lookup _ hnd, hu, hw]
            exact hr
  · cases hu : alistLookup (reconcile F S).updatedItems f.md5 with
    | some u =>
        have hsu := hUA _ _ hu
        rw [hstore] at hsu
        cases hsu
    | none =>
        refine ⟨r, ?_, hrid⟩
        rw [finalStore_lookup _ hnd, hu, hr]

/-- Processing a list of items whose fingerprints all resolve in the store to
records already carrying their ids is a no-op on the whole state. -/
theorem unchanged_run (L : List Item) (s : RecState)
    (h : ∀ f ∈ L, ∃ r, alistLookup s.store f.md5 = some r ∧ r.id = f.id) :
    L.foldl reconcileStep s = s := by
  induction L with
  | nil => rfl
  | cons c rest ih =>
      obtain ⟨r, hr, hrid⟩ := h c (List.mem_cons_self c rest)
      show rest.foldl reconcileStep (reconcileStep s c) = s
      rw [reconcileStep_of_some_eq s c r hr hrid.symm]
      exact ih (fun f hf => h f (List.mem_cons_of_mem c hf))

/-- C2: in a reconciliation pass, for a fresh listing whose fingerprint is
already in the store: if the fresh id differs from the stored id the listing
is classified updated — the stored record gets exactly the fresh `id` and
`apartment_page_url` while its `md5` and all remaining fields are retained —
other store keys are untouched and `new_items` is unchanged; if the id
matches, nothing in the state is mutated at all. -/
theorem C2_update_frame (s : RecState) (current_item existing_item : Item)
    (hl : alistLookup s.store current_item.md5 = some existing_item) :
    (current_item.id ≠ existing_item.id →
       alistLookup (reconcileStep s current_item).store current_item.md5 =
         some { existing_item with
                  id := current_item.id,
                  apartment_page_url := current_item.apartment_page_url } ∧
       (∀ k, k ≠ current_item.md5 →
          alistLookup (reconcileStep s current_item).store k =
            alistLookup s.store k) ∧
       alistLookup (reconcileStep s current_item).updatedItems current_item.md5 =
         some { existing_item with
                  id := current_item.id,
                  apartment_page_url := current_item.apartment_page_url } ∧
       (reconcileStep s current_item).newItems = s.newItems) ∧
    (current_item.id = existing_item.id → reconcileStep s current_item = s) := by
  constructor
  · intro hid
    rw [reconcileStep_of_some_ne s current_item existing_item hl hid]
    refine ⟨alistLookup_insert_self _ _ _, ?_, alistLookup_insert_self _ _ _, rfl⟩
    intro k hk
    exact alistLookup_insert_ne _ _ _ _ hk
  · intro hid
    exact reconcileStep_of_some_eq s current_item existing_item hl hid

/-- Witness for C2 at the spec's own example: store `fp1 ↦ {id A}`, fresh
`{id B, md5 fp1}`: the stored record's id and page URL are replaced, its
other fields kept, and a same-id fresh item leaves the state untouched. -/
theorem C2_update_frame_witness :
    (alistLookup
        (reconcileStep
          ⟨[("fp1", ⟨"A", "urlA", "fp1", [("price", "5000")]⟩)], [], []⟩
          ⟨"B", "urlB", "fp1", [("price", "5000")]⟩).store "fp1" =
      some ⟨"B", "urlB", "fp1", [("price", "5000")]⟩) ∧
    (reconcileStep
        ⟨[("fp1", ⟨"A", "urlA", "fp1", [("price", "5000")]⟩)], [], []⟩
        ⟨"A", "urlA2", "fp1", [("price", "5000")]⟩ =
      ⟨[("fp1", ⟨"A", "urlA", "fp1", [("price", "5000")]⟩)], [], []⟩) := by
  have h1 := C2_update_frame
    ⟨[("fp1", ⟨"A", "urlA", "fp1", [("price", "5000")]⟩)], [], []⟩
    ⟨"B", "urlB", "fp1", [("price", "5000")]⟩
    ⟨"A", "urlA", "fp1", [("price", "5000")]⟩ (by decide)
  have h2 := C2_update_frame
    ⟨[("fp1", ⟨"A", "urlA", "fp1", [("price", "5000")]⟩)], [], []⟩
    ⟨"A", "urlA2", "fp1", [("price", "5000")]⟩
    ⟨"A", "urlA", "fp1", [("price", "5000")]⟩ (by decide)
  exact ⟨(h1.1 (by decide)).1, h2.2 (by decide)⟩

/-- C3: the store is append/update-only — every fingerprint key present
before a reconciliation pass is still present in the final store, and a key
whose fingerprint is not among the fresh items keeps its record verbatim. -/
theorem C3_store_monotone (F : List Item) (S : Store) (k : String)
    (hk : alistMem S k = true) :
    alistMem (finalStore (reconcile F S)) k = true ∧
    (k ∉ F.map Item.md5 →
       alistLookup (finalStore (reconcile F S)) k = alistLookup S k) := by
  have hnd := partNodup_reconcile F S
  have hNF := newFresh_reconcile F S
  have hstore0 : alistLookup (reconcile F S).store k ≠ none := by
    show alistLookup ((F.foldl reconcileStep ⟨S, [], []⟩).store) k ≠ none
    intro hnone
    rw [foldl_store_none F ⟨S, [], []⟩ k] at hnone
    have hnone' : alistLookup S k = none := hnone
    unfold alistMem at hk
    rw [hnone'] at hk
    cases hk
  constructor
  · unfold alistMem
    rw [finalStore_lookup _ hnd]
    cases hu : alistLookup (reconcile F S).updatedItems k with
    | some u => rfl
    | none =>
        cases hw : alistLookup (reconcile F S).newItems k with
        | some w => rfl
        | none =>
            cases hs : alistLookup (reconcile F S).store k with
            | some v => rfl
            | none => exact absurd hs hstore0
  · intro hfresh
    obtain ⟨e1, e2, e3⟩ := foldl_untouched F ⟨S, [], []⟩ k hfresh
    have e1' : alistLookup (reconcile F S).store k = alistLookup S k := by
      rw [show (reconcile F S).store = (F.foldl reconcileStep ⟨S, [], []⟩).store from rfl, e1]
    have e2' : alistLookup (reconcile F S).newItems k = none := by
      rw [show (reconcile F S).newItems = (F.foldl reconcileStep ⟨S, [], []⟩).newItems from rfl, e2]
      rfl
    have e3' : alistLookup (reconcile F S).updatedItems k = none := by
      rw [show (reconcile F S).updatedItems = (F.foldl reconcileStep ⟨S, [], []⟩).updatedItems from rfl, e3]
      rfl
    rw [finalStore_lookup _ hnd, e3', e2']
    exact e1' 

/-- Witness for C3: a store with fingerprint `fp0` and a fresh set whose only
item has fingerprint `fp1`: `fp0` survives the pass with its record intact. -/
theorem C3_store_monotone_witness :
    alistMem
      (finalStore (reconcile [⟨"B", "urlB", "fp1", []⟩]
        [("fp0", ⟨"A", "urlA", "fp0", [("rooms", "3")]⟩)])) "fp0" = true ∧
    alistLookup
      (finalStore (reconcile [⟨"B", "urlB", "fp1", []⟩]
        [("fp0", ⟨"A", "urlA", "fp0", [("rooms", "3")]⟩)])) "fp0" =
      alistLookup [("fp0", ⟨"A", "urlA", "fp0", [("rooms", "3")]⟩)] "fp0" := by
  have h := C3_store_monotone [⟨"B", "urlB", "fp1", []⟩]
    [("fp0", ⟨"A", "urlA", "fp0", [("rooms", "3")]⟩)] "fp0" (by decide)
  exact ⟨h.1, h.2 (by decide)⟩

theorem gatherResults_error_of_mem {ε α : Type} (rs : List (Except ε α)) (e : ε)
    (h : Except.error e ∈ rs) : ∃ e', gatherResults rs = Except.error e' := by
  induction rs with
  | nil => cases h
  | cons r rest ih =>
      cases r with
      | error e0 => exact ⟨e0, rfl⟩
      | ok a =>
          have h' : Except.error e ∈ rest := by
            rcases List.mem_cons.mp h with h1 | h1
            · cases h1
            · exact h1
          obtain ⟨e', he'⟩ := ih h'
          refine ⟨e', ?_⟩
          show (do pure (a :: (← gatherResults rest)) : Except ε (List α)) = Except.error e'
          rw [he']
          rfl

/-- C4 counterexample: with one adapter succeeding and the other raising, the
whole `run_generic_scraper` cycle raises — the healthy adapter's item is
neither reconciled nor persisted, refuting the fault-tolerant join. -/
theorem C4_counterexample :
    run_generic_scraper
      [Except.ok [⟨"A", "urlA", "fp1", []⟩], Except.error "adapter failure"]
      [] = Except.error "adapter failure" := by
  rfl

/-- C4 (amended): an adapter failure propagates through the plain
`asyncio.gather` join and aborts the entire cycle with that failure; no
adapter's results are reconciled or persisted in that cycle. -/
theorem C4_amended_abort (rs : List (Except String (List Item))) (old_by_md5 : Store)
    (e : String) (h : Except.error e ∈ rs) :
    ∃ e', run_generic_scraper rs old_by_md5 = Except.error e' := by
  obtain ⟨e', hg⟩ := gatherResults_error_of_mem rs e h
  refine ⟨e', ?_⟩
  unfold run_generic_scraper
  rw [hg]
  rfl

/-- Witness for C4 (amended) at a concrete failing adapter list. -/
theorem C4_amended_abort_witness :
    ∃ e', run_generic_scraper
      [Except.ok [⟨"A", "urlA", "fp1", []⟩], Except.error "rate limited"]
      [("fp0", ⟨"Z", "urlZ", "fp0", []⟩)] = Except.error e' :=
  C4_amended_abort
    [Except.ok [⟨"A", "urlA", "fp1", []⟩], Except.error "rate limited"]
    [("fp0", ⟨"Z", "urlZ", "fp0", []⟩)] "rate limited" (by simp)

/-- C5 counterexample: two fresh items with the same fingerprint but different
ids (last-one-wins tie-break) make the second pass over the produced store
classify the first item as updated — the updated partition of the rerun is
not empty, refuting idempotence as universally stated. -/
theorem C5_counterexample :
    (reconcile [⟨"A", "urlA", "fpX", []⟩, ⟨"B", "urlB", "fpX", []⟩]
      (finalStore (reconcile
        [⟨"A", "urlA", "fpX", []⟩, ⟨"B", "urlB", "fpX", []⟩] []))).updatedItems ≠
      [] := by decide

/-- C5 (amended): reconcile is idempotent provided no two fresh listings carry
the same fingerprint with different ids (in particular whenever the fresh
fingerprints are pairwise distinct): rerunning the merge with the same fresh
set on the store it produced yields empty new and updated partitions. -/
theorem C5_amended_idempotent (F : List Item) (S : Store)
    (hF : ∀ a ∈ F, ∀ b ∈ F, a.md5 = b.md5 → a.id = b.id) :
    (reconcile F (finalStore (reconcile F S))).newItems = [] ∧
    (reconcile F (finalStore (reconcile F S))).updatedItems = [] := by
  have hrun : F.foldl reconcileStep ⟨finalStore (reconcile F S), [], []⟩ =
      ⟨finalStore (reconcile F S), [], []⟩ := by
    apply unchanged_run
    intro f hf
    exact finalStore_resolves F S f hf (fun a ha hmd => hF a ha f hf hmd)
  constructor
  · show (F.foldl reconcileStep ⟨finalStore (reconcile F S), [], []⟩).newItems = []
    rw [hrun]
  · show (F.foldl reconcileStep ⟨finalStore (reconcile F S), [], []⟩).updatedItems = []
    rw [hrun]

/-- Witness for C5 (amended) on a two-item fresh set with distinct
fingerprints over an initially non-empty store. -/
theorem C5_amended_idempotent_witness :
    (reconcile [⟨"A", "urlA", "fp1", []⟩, ⟨"B", "urlB", "fp2", []⟩]
      (finalStore (reconcile [⟨"A", "urlA", "fp1", []⟩, ⟨"B", "urlB", "fp2", []⟩]
        [("fp1", ⟨"A0", "urlA0", "fp1", []⟩)]))).newItems = [] ∧
    (reconcile [⟨"A", "urlA", "fp1", []⟩, ⟨"B", "urlB", "fp2", []⟩]
      (finalStore (reconcile [⟨"A", "urlA", "fp1", []⟩, ⟨"B", "urlB", "fp2", []⟩]
        [("fp1", ⟨"A0", "urlA0", "fp1", []⟩)]))).updatedItems = [] :=
  C5_amended_idempotent
    [⟨"A", "urlA", "fp1", []⟩, ⟨"B", "urlB", "fp2", []⟩]
    [("fp1", ⟨"A0", "urlA0", "fp1", []⟩)]
    (by decide)

theorem process_loop_skip (pre rest : List Blob)
    (hpre : ∀ b ∈ pre, ∃ j, b = Blob.parsed j ∧
        find_rental_data_in_blob j = Except.ok (J.arr [])) :
    process_json_scripts_loop (pre ++ rest) = process_json_scripts_loop rest := by
  induction pre with
  | nil => rfl
  | cons b pre' ih =>
      obtain ⟨j, hb, hj⟩ := hpre b (List.mem_cons_self b pre')
      subst hb
      show process_json_scripts_loop (Blob.parsed j :: (pre' ++ rest)) =
        process_json_scripts_loop rest
      conv_lhs => rw [process_json_scripts_loop]
      rw [hj]
      show (if (J.arr []).truthy = true then pure (some (J.arr []))
            else process_json_scripts_loop (pre' ++ rest)) = process_json_scripts_loop rest
      rw [if_neg (by simp [J.truthy])]
      exact ih (fun b hb => hpre b (List.mem_cons_of_mem _ hb))

/-- C7: a non-deserializable blob ahead of a valid candidate is fatal: as
long as the earlier candidates parse but contain no listing data, the scan
raises the deserialization error at the malformed blob instead of skipping
ahead, whatever valid candidates follow. -/
theorem C7_fail_fast (pre rest : List Blob) (bad : String)
    (hpre : ∀ b ∈ pre, ∃ j, b = Blob.parsed j ∧
        find_rental_data_in_blob j = Except.ok (J.arr [])) :
    process_json_scripts (pre ++ Blob.malformed bad :: rest) =
      Except.error PyErr.jsonDecodeError := by
  unfold process_json_scripts
  rw [process_loop_skip pre (Blob.malformed bad :: rest) hpre]
  rfl

/-- Witness for C7: with a no-match candidate, then a malformed blob, then a
fully valid candidate, the scan fails fast on the malformed blob; the same
valid candidate alone is accepted, so it was genuinely skipped over. -/
theorem C7_fail_fast_witness :
    process_json_scripts
      [Blob.parsed (J.obj []), Blob.malformed "not json", Blob.parsed validListingBlob] =
      Except.error PyErr.jsonDecodeError ∧
    process_json_scripts [Blob.parsed validListingBlob] =
      Except.ok [validListingParsed] := by
  constructor
  · exact C7_fail_fast [Blob.parsed (J.obj [])] [Blob.parsed validListingBlob] "not json"
      (by
        intro b hb
        simp only [List.mem_singleton] at hb
        subst hb
        exact ⟨J.obj [], rfl, rfl⟩)
  · rfl

/-- C9 counterexample: a successfully parsed, non-empty detail payload whose
`target` entry is absent makes `extract_additional_details` raise the
invalid-structure exception — a missing intermediate step is not tolerated
there, refuting "never raises ... only deserialization failure and total
search exhaustion are errors". -/
theorem C9_counterexample :
    extract_additional_details (J.obj [("listing_title", J.str "flat")]) =
      Except.error
        (PyErr.exception "Invalid target data structure (not a dict...) in product details.") := by
  rfl

/-- C9 (amended): missing intermediate keys in the payload locator's descent
are tolerated as no-match, and missing secondary attributes in the detail
extraction yield the `'N/A'` sentinel — except that the extraction demands a
dict `target` at the root of the detail payload and raises the
invalid-structure exception when it is missing or not a dict. -/
theorem C9_amended_guarded :
    (∀ fs : List (String × J), alistLookup fs "require" = none →
        find_rental_data_in_blob (J.obj fs) = Except.ok (J.arr [])) ∧
    (find_rental_data_in_blob truncatedListingBlob = Except.ok (J.arr [])) ∧
    (∀ pd : J, (∀ tfs : List (String × J), safe_get pd ["target"] ≠ J.obj tfs) →
        extract_additional_details pd =
          Except.error
            (PyErr.exception "Invalid target data structure (not a dict...) in product details.")) ∧
    (extract_additional_details (J.obj [("target", J.obj [])]) =
      Except.ok [("description", J.str "N/A"), ("full_address", J.str "N/A"),
                 ("location", J.str "N/A"), ("delivery_types", J.arr []),
                 ("unit_room_info", J.str "N/A"), ("rooms", J.str "N/A"),
                 ("comments_count", J.str "N/A")]) := by
  refine ⟨?_, by rfl, ?_, by rfl⟩
  · intro fs h
    unfold find_rental_data_in_blob
    show (do
        let require0 ← pyGetD (J.obj fs) "require" (.arr [])
        let items ← pyIter require0
        match ← findInList (fbOuterStep fbListingsInnerStep) items with
        | some edges => pure edges
        | none => pure (.arr [])) = Except.ok (J.arr [])
    simp only [pyGetD, h, Option.getD]
    rfl
  · intro pd htarget
    cases h : safe_get pd ["target"] with
    | obj tfs => exact absurd h (htarget tfs)
    | null => simp [extract_additional_details, h]
    | bool b => simp [extract_additional_details, h]
    | num n => simp [extract_additional_details, h]
    | str t => simp [extract_additional_details, h]
    | arr xs => simp [extract_additional_details, h]

/-- Witness for C9 (amended): a payload without a `require` entry is a quiet
no-match, and a payload whose `target` is a list (not a dict) raises. -/
theorem C9_amended_guarded_witness :
    find_rental_data_in_blob (J.obj [("other", J.null)]) = Except.ok (J.arr []) ∧
    extract_additional_details (J.obj [("target", J.arr [J.str "x"])]) =
      Except.error
        (PyErr.exception "Invalid target data structure (not a dict...) in product details.") := by
  constructor
  · exact C9_amended_guarded.1 [("other", J.null)] rfl
  · exact C9_amended_guarded.2.2.1 (J.obj [("target", J.arr [J.str "x"])])
      (fun tfs h => by simp [safe_get, alistLookup] at h)

theorem fetchRetryLoop_success (fetchO : Nat → FetchOutcome) (jitter : Nat → ℚ)
    (max_retries attempt : Nat) (html : String)
    (h : fetchO attempt = FetchOutcome.success html) :
    fetchRetryLoop fetchO jitter max_retries attempt = (Except.ok html, []) := by
  rw [fetchRetryLoop, h]

theorem fetchRetryLoop_timeout_retry (fetchO : Nat → FetchOutcome) (jitter : Nat → ℚ)
    (max_retries attempt : Nat) (h : fetchO attempt = FetchOutcome.timeout)
    (hlt : attempt < max_retries) :
    fetchRetryLoop fetchO jitter max_retries attempt =
      ((fetchRetryLoop fetchO jitter max_retries (attempt + 1)).1,
       ((2 : ℚ) ^ attempt + jitter attempt) ::
         (fetchRetryLoop fetchO jitter max_retries (attempt + 1)).2) := by
  rw [fetchRetryLoop, h]
  rw [dif_pos hlt]

theorem fetchRetryLoop_timeout_exhausted (fetchO : Nat → FetchOutcome) (jitter : Nat → ℚ)
    (max_retries attempt : Nat) (h : fetchO attempt = FetchOutcome.timeout)
    (hge : ¬ attempt < max_retries) :
    fetchRetryLoop fetchO jitter max_retries attempt =
      (Except.error PyErr.timeoutError, []) := by
  rw [fetchRetryLoop, h]
  rw [dif_neg hge]

/-- C8: with the source's budget of 2 extra attempts, (i) a detail fetch that
times out twice and succeeds on the third call returns that page, having
slept `2^attempt + uniform(0,1)` seconds before each retry; (ii) a fetch
whose three calls all time out propagates the timeout after the same two
backoff sleeps; (iii) in the twice-timeout-then-success case the whole
per-listing task merges every extracted detail field into the listing. -/
theorem C8_retry_backoff :
    (∀ (fetchO : Nat → FetchOutcome) (jitter : Nat → ℚ) (html : String),
       fetchO 0 = FetchOutcome.timeout → fetchO 1 = FetchOutcome.timeout →
       fetchO 2 = FetchOutcome.success html →
       fetch_html_from_share_uri_with_retry fetchO jitter 2 =
         (Except.ok html, [(2 : ℚ) ^ 0 + jitter 0, (2 : ℚ) ^ 1 + jitter 1])) ∧
    (∀ (fetchO : Nat → FetchOutcome) (jitter : Nat → ℚ),
       (∀ n, n ≤ 2 → fetchO n = FetchOutcome.timeout) →
       fetch_html_from_share_uri_with_retry fetchO jitter 2 =
         (Except.error PyErr.timeoutError,
          [(2 : ℚ) ^ 0 + jitter 0, (2 : ℚ) ^ 1 + jitter 1])) ∧
    (∀ (fetchO : Nat → FetchOutcome) (jitter : Nat → ℚ)
       (scripts_of : String → List Blob) (apartment : List (String × J))
       (apartments_list : List (List (String × J))) (index : Nat)
       (html : String) (su details_data : J)
       (additional_details : List (String × J)),
       fetchO 0 = FetchOutcome.timeout → fetchO 1 = FetchOutcome.timeout →
       fetchO 2 = FetchOutcome.success html →
       alistLookup apartment "share_uri" = some su →
       su.truthy = true → isNA su = false →
       find_details_loop (scripts_of html) = Except.ok (some details_data) →
       extract_additional_details details_data = Except.ok additional_details →
       index < apartments_list.length →
       fetch_and_parse_details fetchO jitter scripts_of apartment apartments_list index =
         Except.ok
           (apartments_list.set index
              (alistUpdate (apartments_list.getD index []) additional_details),
            additional_details)) := by
  have retry3 : ∀ (fetchO : Nat → FetchOutcome) (jitter : Nat → ℚ) (html : String),
      fetchO 0 = FetchOutcome.timeout → fetchO 1 = FetchOutcome.timeout →
      fetchO 2 = FetchOutcome.success html →
      fetch_html_from_share_uri_with_retry fetchO jitter 2 =
        (Except.ok html, [(2 : ℚ) ^ 0 + jitter 0, (2 : ℚ) ^ 1 + jitter 1]) := by
    intro fetchO jitter html h0 h1 h2
    unfold fetch_html_from_share_uri_with_retry
    rw [fetchRetryLoop_timeout_retry fetchO jitter 2 0 h0 (by norm_num),
        fetchRetryLoop_timeout_retry fetchO jitter 2 1 h1 (by norm_num),
        fetchRetryLoop_success fetchO jitter 2 2 html h2]
  refine ⟨retry3, ?_, ?_⟩
  · intro fetchO jitter hall
    unfold fetch_html_from_share_uri_with_retry
    rw [fetchRetryLoop_timeout_retry fetchO jitter 2 0 (hall 0 (by norm_num)) (by norm_num),
        fetchRetryLoop_timeout_retry fetchO jitter 2 1 (hall 1 (by norm_num)) (by norm_num),
        fetchRetryLoop_timeout_exhausted fetchO jitter 2 2 (hall 2 (by norm_num)) (by norm_num)]
  · intro fetchO jitter scripts_of apartment apartments_list index html su details_data
      additional_details h0 h1 h2 hsu htr hna hloop hex hidx
    unfold fetch_and_parse_details
    rw [hsu]
    show (if !su.truthy || isNA su then _ else _) = _
    rw [if_neg (by rw [htr, hna]; simp)]
    rw [retry3 fetchO jitter html h0 h1 h2]
    show (do
        let html ← (Except.ok html : Except PyErr String)
        let json_script_strs := scripts_of html
        if json_script_strs.isEmpty then
          Except.error (PyErr.valueError "No script tags with data-sjs attribute found.")
        else do
          match ← find_details_loop json_script_strs with
          | none =>
              Except.error (PyErr.valueError "Failed to find detailed data on share_uri page.")
          | some details_data => do
              let additional_details ← extract_additional_details details_data
              if index < apartments_list.length then
                pure (apartments_list.set index
                        (alistUpdate (apartments_list.getD index []) additional_details),
                      additional_details)
              else Except.error PyErr.indexError) = _
    have hne : (scripts_of html).isEmpty = false := by
      cases hsc : scripts_of html with
      | nil =>
          rw [hsc] at hloop
          exact absurd hloop (by simp [find_details_loop, pure, Except.pure])
      | cons b bs => rfl
    show (if (scripts_of html).isEmpty then _ else _) = _
    rw [if_neg (by rw [hne]; simp)]
    show (do
        match ← find_details_loop (scripts_of html) with
        | none =>
            Except.error (PyErr.valueError "Failed to find detailed data on share_uri page.")
        | some details_data => do
            let additional_details ← extract_additional_details details_data
            if index < apartments_list.length then
              pure (apartments_list.set index
                      (alistUpdate (apartments_list.getD index []) additional_details),
                    additional_details)
            else Except.error PyErr.indexError) = _
    rw [hloop]
    show (do
        let additional_details ← extract_additional_details details_data
        if index < apartments_list.length then
          pure (apartments_list.set index
                  (alistUpdate (apartments_list.getD index []) additional_details),
                additional_details)
        else Except.error PyErr.indexError) = _
    rw [hex]
    show (if index < apartments_list.length then _ else _) = _
    rw [if_pos hidx]
    rfl

/-- Witness for C8 on a concrete twice-timing-out fetch, an always-timing-out
fetch, and a concrete enrichment run that merges the extracted details. -/
theorem C8_retry_backoff_witness :
    fetch_html_from_share_uri_with_retry
      (fun n => if n < 2 then FetchOutcome.timeout else FetchOutcome.success "page")
      (fun _ => 1 / 2) 2 =
      (Except.ok "page", [(2 : ℚ) ^ 0 + 1 / 2, (2 : ℚ) ^ 1 + 1 / 2]) ∧
    fetch_html_from_share_uri_with_retry (fun _ => FetchOutcome.timeout)
      (fun _ => 1 / 2) 2 =
      (Except.error PyErr.timeoutError, [(2 : ℚ) ^ 0 + 1 / 2, (2 : ℚ) ^ 1 + 1 / 2]) ∧
    fetch_and_parse_details
      (fun n => if n < 2 then FetchOutcome.timeout else FetchOutcome.success "page")
      (fun _ => 1 / 2) (fun _ => [Blob.parsed validDetailsBlob])
      [("id", J.str "123"), ("share_uri", J.str "https://fb/s/123")]
      [[("id", J.str "123"), ("share_uri", J.str "https://fb/s/123")]] 0 =
      Except.ok
        ([[("id", J.str "123"), ("share_uri", J.str "https://fb/s/123")]].set 0
           (alistUpdate
             ([[("id", J.str "123"), ("share_uri", J.str "https://fb/s/123")]].getD 0 [])
             [("description", J.str "N/A"), ("full_address", J.str "N/A"),
              ("location", J.str "N/A"), ("delivery_types", J.arr []),
              ("unit_room_info", J.str "3 beds"), ("rooms", J.str "3"),
              ("comments_count", J.str "N/A")]),
         [("description", J.str "N/A"), ("full_address", J.str "N/A"),
          ("location", J.str "N/A"), ("delivery_types", J.arr []),
          ("unit_room_info", J.str "3 beds"), ("rooms", J.str "3"),
          ("comments_count", J.str "N/A")]) := by
  refine ⟨C8_retry_backoff.1 _ _ "page" rfl rfl rfl,
          C8_retry_backoff.2.1 _ _ (fun n _ => rfl), ?_⟩
  exact C8_retry_backoff.2.2 _ _ _ _ _ 0 "page" (J.str "https://fb/s/123")
    validDetailsPayload _ rfl rfl rfl rfl rfl rfl rfl rfl (by norm_num)

set_option maxHeartbeats 2000000 in
/-- C1 (evaluating the code at the failing input): the same physical listing
fetched twice with rotated tokens `aaaa`/`bbbb`, identical price and
location, feeds two different byte strings to md5 — the yad2 digest input
contains `id` and `apartment_page_url` — even though both fetches agree on
price and location; likewise `_get_md5_for_comparison` hashes a dict that
includes `id`, so the two comparison strings differ as well. -/
theorem C1_fingerprint_rotates_with_id :
    (yad2_md5_input (J.obj [("token", J.str "aaaa"), ("price", J.num 5000),
        ("address", J.obj [("city", J.obj [("text", J.str "Tel Aviv")]),
                           ("street", J.obj [("text", J.str "Dizengoff")])])]) ≠
     yad2_md5_input (J.obj [("token", J.str "bbbb"), ("price", J.num 5000),
        ("address", J.obj [("city", J.obj [("text", J.str "Tel Aviv")]),
                           ("street", J.obj [("text", J.str "Dizengoff")])])])) ∧
    ((do
       let fields ← yad2_processed_fields
         (J.obj [("token", J.str "aaaa"), ("price", J.num 5000),
                 ("address", J.obj [("city", J.obj [("text", J.str "Tel Aviv")]),
                                    ("street", J.obj [("text", J.str "Dizengoff")])])])
       pure (pyStr ((alistLookup fields "price").getD J.null),
             pyStr ((alistLookup fields "location").getD J.null))) =
     (do
       let fields ← yad2_processed_fields
         (J.obj [("token", J.str "bbbb"), ("price", J.num 5000),
                 ("address", J.obj [("city", J.obj [("text", J.str "Tel Aviv")]),
                                    ("street", J.obj [("text", J.str "Dizengoff")])])])
       pure (pyStr ((alistLookup fields "price").getD J.null),
             pyStr ((alistLookup fields "location").getD J.null)))) ∧
    (fb_groups_comparison_string
        [("price", J.num 5000), ("id", J.str "A1"),
         ("full_address", J.str "Dizengoff, Tel Aviv")] ≠
     fb_groups_comparison_string
        [("price", J.num 5000), ("id", J.str "B2"),
         ("full_address", J.str "Dizengoff, Tel Aviv")]) := by
  refine ⟨by decide, by decide, by decide⟩

theorem mapM_except_length {ε α β : Type} (f : α → Except ε β) (xs : List α)
    (ys : List β) (h : xs.mapM f = Except.ok ys) : ys.length = xs.length := by
  induction xs generalizing ys with
  | nil =>
      simp only [List.mapM_nil, pure, Except.pure] at h
      cases h
      rfl
  | cons x rest ih =>
      rw [List.mapM_cons] at h
      cases hf : f x with
      | error e => rw [hf] at h; simp [bind, Except.bind] at h
      | ok y =>
          rw [hf] at h
          cases hm : rest.mapM f with
          | error e => rw [hm] at h; simp [bind, Except.bind] at h
          | ok zs =>
              rw [hm] at h
              simp only [bind, Except.bind, pure, Except.pure] at h
              cases h
              simp [ih zs hm]

theorem mapM_except_ok_forall {ε α β : Type} (f : α → Except ε β) (g : α → β)
    (xs : List α) (h : ∀ x ∈ xs, f x = Except.ok (g x)) :
    xs.mapM f = Except.ok (xs.map g) := by
  induction xs with
  | nil => rfl
  | cons x rest ih =>
      rw [List.mapM_cons, h x (List.mem_cons_self x rest),
          ih (fun a ha => h a (List.mem_cons_of_mem x ha))]
      rfl

theorem yad2_process_page_mk (md5hex : String → String) (totalPages total : Int)
    (priv comm : List J) (ys : List (List (String × J)))
    (h : priv.mapM (yad2_process_item md5hex) = Except.ok ys) :
    yad2_process_page md5hex (mkYad2Page totalPages total priv comm) =
      Except.ok ys := by
  unfold yad2_process_page mkYad2Page
  simp [pyGetD, alistLookup, pyIter, bind, Except.bind]
  exact h

/-- C10: `get_current` returns exactly the normalized `private` records of the
fetched pages — `commercial` records are never normalized or returned — while
the count-mismatch warning compares the returned count against the feed's
`pagination.total`; hence when that total counts both lists and a commercial
record exists, the warning necessarily fires. -/
theorem C10_commercial_excluded (md5hex : String → String)
    (pageSpec : Nat → List J × List J) (totalPages total : Int)
    (ls : Nat → List (List (String × J)))
    (hproc : ∀ i, ((pageSpec i).1).mapM (yad2_process_item md5hex) = Except.ok (ls i)) :
    (yad2_get_current md5hex
        (fun i => mkYad2Page totalPages total (pageSpec i).1 (pageSpec i).2) =
      Except.ok
        (ls 1 ++ (if totalPages > 1 then
             ((List.range' 2 (totalPages.toNat - 1)).map ls).flatten else []),
         (((ls 1 ++ (if totalPages > 1 then
             ((List.range' 2 (totalPages.toNat - 1)).map ls).flatten else [])).length : Int)
           != (0 + total)))) ∧
    (totalPages = 1 →
     total = ((pageSpec 1).1.length : Int) + ((pageSpec 1).2.length : Int) →
     (pageSpec 1).2 ≠ [] →
     yad2_get_current md5hex
        (fun i => mkYad2Page totalPages total (pageSpec i).1 (pageSpec i).2) =
      Except.ok (ls 1, true)) := by
  have hpage : ∀ i, yad2_process_page md5hex
      (mkYad2Page totalPages total (pageSpec i).1 (pageSpec i).2) = Except.ok (ls i) :=
    fun i => yad2_process_page_mk md5hex totalPages total _ _ _ (hproc i)
  have hrest : (List.range' 2 (totalPages.toNat - 1)).mapM
      (fun pn => (Except.ok (ls pn) : Except PyErr (List (List (String × J))))) =
      Except.ok ((List.range' 2 (totalPages.toNat - 1)).map ls) :=
    mapM_except_ok_forall _ ls _ (fun x _ => rfl)
  have hpage' : ∀ i, yad2_process_page md5hex
      (J.obj [("pageProps", J.obj [("feed", J.obj [
         ("pagination", J.obj [("totalPages", J.num totalPages), ("total", J.num total)]),
         ("private", J.arr (pageSpec i).1), ("commercial", J.arr (pageSpec i).2)])])]) =
      Except.ok (ls i) := fun i => hpage i
  have hmain : yad2_get_current md5hex
      (fun i => mkYad2Page totalPages total (pageSpec i).1 (pageSpec i).2) =
      Except.ok
        (ls 1 ++ (if totalPages > 1 then
             ((List.range' 2 (totalPages.toNat - 1)).map ls).flatten else []),
         (((ls 1 ++ (if totalPages > 1 then
             ((List.range' 2 (totalPages.toNat - 1)).map ls).flatten else [])).length : Int)
           != (0 + total))) := by
    have hrestl : List.mapM.loop
        (fun pn => (Except.ok (ls pn) : Except PyErr (List (List (String × J)))))
        (List.range' 2 (totalPages.toNat - 1)) [] =
        Except.ok ((List.range' 2 (totalPages.toNat - 1)).map ls) := hrest
    unfold yad2_get_current
    by_cases htp : totalPages > 1
    · simp [mkYad2Page, pyGetD, alistLookup, pyInt, bind, Except.bind,
            pure, Except.pure, hpage', htp]
      rw [hrestl]
      simp only [List.map_map]
      rfl
    · simp [mkYad2Page, pyGetD, alistLookup, pyInt, bind, Except.bind,
            pure, Except.pure, hpage', htp]
  refine ⟨hmain, ?_⟩
  intro h1 htot hcomm
  subst h1
  have hnot : ¬ ((1 : Int) > 1) := by norm_num
  rw [hmain, if_neg hnot]
  have hlen : (ls 1).length = (pageSpec 1).1.length :=
    mapM_except_length _ _ _ (hproc 1)
  have hpos : 0 < (pageSpec 1).2.length := List.length_pos.mpr hcomm
  have hwarn : ((((ls 1).length : Int)) != (0 + total)) = true := by
    simp only [bne_iff_ne, ne_eq]
    omega
  rw [List.append_nil, hwarn]

/-- Witness for C10: one page whose feed holds one private and one commercial
record and whose pagination total counts both: only the normalized private
record is returned and the count-mismatch warning fires. -/
theorem C10_commercial_excluded_witness :
    yad2_get_current (fun _ => "H")
      (fun i => mkYad2Page 1 2
        ((fun (_ : Nat) => ([J.obj [("token", J.str "t1"), ("price", J.num 4500)]],
                            [J.obj [("token", J.str "c1")]])) i).1
        ((fun (_ : Nat) => ([J.obj [("token", J.str "t1"), ("price", J.num 4500)]],
                            [J.obj [("token", J.str "c1")]])) i).2) =
      Except.ok
        ([[("city", J.str ""), ("street", J.str ""), ("location", J.str ""),
           ("latitude", J.null), ("longitude", J.null), ("price", J.num 4500),
           ("id", J.str "t1"),
           ("apartment_page_url", J.str "https://www.yad2.co.il/realestate/item/t1"),
           ("rooms", J.str ""), ("size", J.str ""), ("images", J.arr []),
           ("tags", J.arr []), ("floor", J.str ""), ("md5", J.str "H"),
           ("type", J.str "yad2")]], true) :=
  (C10_commercial_excluded (fun _ => "H")
    (fun _ => ([J.obj [("token", J.str "t1"), ("price", J.num 4500)]],
               [J.obj [("token", J.str "c1")]])) 1 2
    (fun _ => [[("city", J.str ""), ("street", J.str ""), ("location", J.str ""),
           ("latitude", J.null), ("longitude", J.null), ("price", J.num 4500),
           ("id", J.str "t1"),
           ("apartment_page_url", J.str "https://www.yad2.co.il/realestate/item/t1"),
           ("rooms", J.str ""), ("size", J.str ""), ("images", J.arr []),
           ("tags", J.arr []), ("floor", J.str ""), ("md5", J.str "H"),
           ("type", J.str "yad2")]])
    (fun _ => rfl)).2 rfl (by norm_num) (by simp)

end APT
